import Mathlib

/-!
Verification of the parameter-configuration module `config.py` of the
UnpaidLaborValuationIndia repository.

The module is a declarative parameter set: constant tables, derived scalar
parameters, Monte Carlo distribution specifications, and a handful of helper
functions (unit conversion, formatting, validation, directory provisioning).
Python numeric literals are embedded as exact rationals (the derived values
here are all exact decimal fractions, and the one observable truncation,
`MALE_ANNUAL_SALARY`, agrees between real and IEEE-double evaluation).
Filesystem state for `create_output_directories` is embedded as an explicit
list of existing directory paths, each path a list of name components
relative to the project root.
-/

namespace Config

/-- Minutes per day spent on an activity, by gender (`TIME_ALLOCATION` rows). -/
structure GenderMinutes where
  female : ℕ
  male : ℕ
deriving DecidableEq

/-- Time Use Survey 2019 time allocation table, minutes per day per activity. -/
def TIME_ALLOCATION : List (String × GenderMinutes) :=
  [("food_preparation", ⟨98, 12⟩),
   ("serving_food", ⟨28, 3⟩),
   ("cleanup_meals", ⟨34, 2⟩),
   ("cleaning_dwelling", ⟨66, 8⟩),
   ("care_textiles", ⟨30, 3⟩),
   ("gardening", ⟨8, 4⟩),
   ("shopping", ⟨30, 12⟩),
   ("childcare", ⟨62, 18⟩),
   ("teaching_children", ⟨15, 4⟩),
   ("adult_care", ⟨35, 14⟩),
   ("other_domestic", ⟨35, 14⟩)]

/-- Total daily unpaid work minutes by gender (`TOTAL_UNPAID_MINUTES`). -/
def TOTAL_UNPAID_MINUTES : GenderMinutes := ⟨441, 94⟩

/-- Sum of the female minutes over all activities of `TIME_ALLOCATION`. -/
def sumFemaleMinutes : ℕ :=
  (TIME_ALLOCATION.map (fun row => row.2.female)).sum

/-- Sum of the male minutes over all activities of `TIME_ALLOCATION`. -/
def sumMaleMinutes : ℕ :=
  (TIME_ALLOCATION.map (fun row => row.2.male)).sum

/-- Emotional labor adjustment factor (`EMOTIONAL_LABOR_PREMIUM = 0.20`). -/
def EMOTIONAL_LABOR_PREMIUM : ℚ := 20 / 100

/-- Days per year used in the annual-hours conversion. -/
def DAYS_PER_YEAR : ℚ := 365

/-- Minutes per hour used in the annual-hours conversion. -/
def MINUTES_PER_HOUR : ℚ := 60

/-- 10-year Government Securities yield (`RISK_FREE_RATE = 0.072`). -/
def RISK_FREE_RATE : ℚ := 72 / 1000

/-- Average CPI inflation 2020-2025 (`INFLATION_PREMIUM = 0.024`). -/
def INFLATION_PREMIUM : ℚ := 24 / 1000

/-- Additional household risk (`HOUSEHOLD_RISK_PREMIUM = 0.010`). -/
def HOUSEHOLD_RISK_PREMIUM : ℚ := 10 / 1000

/-- Calculated discount rate, as in the source:
`DISCOUNT_RATE = RISK_FREE_RATE + INFLATION_PREMIUM + HOUSEHOLD_RISK_PREMIUM`. -/
def DISCOUNT_RATE : ℚ := RISK_FREE_RATE + INFLATION_PREMIUM + HOUSEHOLD_RISK_PREMIUM

/-- ASI wage growth 2015-2024 (`WAGE_GROWTH_ASI = 0.062`). -/
def WAGE_GROWTH_ASI : ℚ := 62 / 1000

/-- EPFO payroll growth 2020-2025 (`WAGE_GROWTH_EPFO = 0.058`). -/
def WAGE_GROWTH_EPFO : ℚ := 58 / 1000

/-- Conservative adjustment (`CONSERVATIVE_ADJUSTMENT = -0.002`). -/
def CONSERVATIVE_ADJUSTMENT : ℚ := -2 / 1000

/-- Calculated growth rate, as in the source:
`GROWTH_RATE = (WAGE_GROWTH_ASI + WAGE_GROWTH_EPFO) / 2 + CONSERVATIVE_ADJUSTMENT`. -/
def GROWTH_RATE : ℚ := (WAGE_GROWTH_ASI + WAGE_GROWTH_EPFO) / 2 + CONSERVATIVE_ADJUSTMENT

/-- Time horizon in years (`TIME_HORIZON_YEARS = 55`). -/
def TIME_HORIZON_YEARS : ℤ := 55

/-- Annual female salary in rupees (`FEMALE_ANNUAL_SALARY = 1_345_000`). -/
def FEMALE_ANNUAL_SALARY : ℤ := 1345000

/-- Male salary premium (`MALE_SALARY_PREMIUM = 0.35`). -/
def MALE_SALARY_PREMIUM : ℚ := 35 / 100

/-- Python `int(x)` on a real value: truncation toward zero. -/
def pyInt (q : ℚ) : ℤ := if 0 ≤ q then ⌊q⌋ else ⌈q⌉

/-- Derived male annual salary, as in the source:
`MALE_ANNUAL_SALARY = int(FEMALE_ANNUAL_SALARY * (1 + MALE_SALARY_PREMIUM))`. -/
def MALE_ANNUAL_SALARY : ℤ :=
  pyInt ((FEMALE_ANNUAL_SALARY : ℚ) * (1 + MALE_SALARY_PREMIUM))

/-- Lifecycle cost lump sum in rupees (`LIFECYCLE_COST_LUMP = 5_000_000`). -/
def LIFECYCLE_COST_LUMP : ℚ := 5000000

/-- Number of Monte Carlo iterations (`MC_ITERATIONS = 10_000`). -/
def MC_ITERATIONS : ℕ := 10000

/-- A Monte Carlo parameter distribution specification: mean, standard
deviation and truncation bounds, as in each entry of `MC_PARAMS`. -/
structure Dist where
  mean : ℚ
  std : ℚ
  min : ℚ
  max : ℚ
deriving DecidableEq

/-- Monte Carlo parameter uncertainty distributions (`MC_PARAMS`). -/
def MC_PARAMS : List (String × Dist) :=
  [("discount_rate", ⟨DISCOUNT_RATE, 15 / 1000, 5 / 100, 15 / 100⟩),
   ("growth_rate", ⟨GROWTH_RATE, 12 / 1000, 2 / 100, 10 / 100⟩),
   ("hours_multiplier", ⟨1, 10 / 100, 70 / 100, 130 / 100⟩),
   ("wage_multiplier", ⟨1, 10 / 100, 80 / 100, 130 / 100⟩),
   ("lifecycle_cost", ⟨LIFECYCLE_COST_LUMP, 15 / 100 * LIFECYCLE_COST_LUMP,
      5 / 10 * LIFECYCLE_COST_LUMP, 15 / 10 * LIFECYCLE_COST_LUMP⟩)]

/-- The parameters read by `validate_parameters`.  In the source they are
module-level constants; they are gathered in a record so that validation can
be stated both at the default configuration and at perturbed ones. -/
structure Params where
  discount_rate : ℚ
  growth_rate : ℚ
  time_horizon_years : ℤ
  mc_iterations : ℕ
  emotional_labor_premium : ℚ
deriving DecidableEq

/-- The default configuration: the module-level constants of `config.py`. -/
def defaultParams : Params :=
  ⟨DISCOUNT_RATE, GROWTH_RATE, TIME_HORIZON_YEARS, MC_ITERATIONS, EMOTIONAL_LABOR_PREMIUM⟩

/-- First check of `validate_parameters`: `0 < DISCOUNT_RATE < 0.20`. -/
def discountRateOK (p : Params) : Prop :=
  0 < p.discount_rate ∧ p.discount_rate < 20 / 100

/-- Second check of `validate_parameters`: `0 <= GROWTH_RATE < 0.15`. -/
def growthRateOK (p : Params) : Prop :=
  0 ≤ p.growth_rate ∧ p.growth_rate < 15 / 100

/-- Third check of `validate_parameters`: `TIME_HORIZON_YEARS > 0`. -/
def horizonOK (p : Params) : Prop := 0 < p.time_horizon_years

/-- Fourth check of `validate_parameters`: `MC_ITERATIONS >= 1000`. -/
def iterationsOK (p : Params) : Prop := 1000 ≤ p.mc_iterations

/-- Fifth check of `validate_parameters`:
`0 <= EMOTIONAL_LABOR_PREMIUM <= 0.50`. -/
def premiumOK (p : Params) : Prop :=
  0 ≤ p.emotional_labor_premium ∧ p.emotional_labor_premium ≤ 50 / 100

instance (p : Params) : Decidable (discountRateOK p) := by
  unfold discountRateOK; infer_instance

instance (p : Params) : Decidable (growthRateOK p) := by
  unfold growthRateOK; infer_instance

instance (p : Params) : Decidable (horizonOK p) := by
  unfold horizonOK; infer_instance

instance (p : Params) : Decidable (iterationsOK p) := by
  unfold iterationsOK; infer_instance

instance (p : Params) : Decidable (premiumOK p) := by
  unfold premiumOK; infer_instance

/-- Embedding of `validate_parameters`: the five asserts of the source, in
order, each with its message (an f-string interpolating the value for the
first two, a fixed message for the rest).  A failed assert raises, modelled
as `Except.error` carrying the message; fall-through is success. -/
def validate_parameters (p : Params) : Except String Unit :=
  if ¬ discountRateOK p then
    Except.error ("Discount rate " ++ toString p.discount_rate ++ " out of range")
  else if ¬ growthRateOK p then
    Except.error ("Growth rate " ++ toString p.growth_rate ++ " out of range")
  else if ¬ horizonOK p then
    Except.error ("Time horizon must be positive")
  else if ¬ iterationsOK p then
    Except.error ("Monte Carlo iterations too low")
  else if ¬ premiumOK p then
    Except.error ("Emotional labor premium out of range")
  else
    Except.ok ()

/-- Embedding of `get_annual_hours`: minutes per day to hours per year. -/
def get_annual_hours (minutes_per_day : ℚ) : ℚ :=
  minutes_per_day * DAYS_PER_YEAR / MINUTES_PER_HOUR

/-- Embedding of `apply_emotional_labor_adjustment`. -/
def apply_emotional_labor_adjustment (hours : ℚ) : ℚ :=
  hours * (1 + EMOTIONAL_LABOR_PREMIUM)

/-- Rounding to the nearest integer with ties to even, the rounding used by
Python's fixed-point string conversion (the `.0f` and `.1` pieces of
`CURRENCY_FORMAT` and `PERCENTAGE_FORMAT`). -/
def roundHalfEven (q : ℚ) : ℤ :=
  if q - ⌊q⌋ < 1 / 2 then ⌊q⌋
  else if 1 / 2 < q - ⌊q⌋ then ⌊q⌋ + 1
  else if 2 ∣ ⌊q⌋ then ⌊q⌋ else ⌊q⌋ + 1

/-- Insert a comma before every third digit, working over the reversed digit
list with `k` the number of digits already emitted. -/
def commaRev : List Char → ℕ → List Char
  | [], _ => []
  | c :: cs, k =>
    if 0 < k ∧ k % 3 = 0 then ',' :: c :: commaRev cs (k + 1)
    else c :: commaRev cs (k + 1)

/-- Thousands grouping of a digit string, as done by the comma flag of the
`CURRENCY_FORMAT` template. -/
def groupThousands (s : String) : String :=
  String.mk ((commaRev s.data.reverse 0).reverse)

/-- Embedding of `format_currency`: the template is a rupee sign followed by
the amount rounded to zero decimal places and grouped by thousands. -/
def format_currency (amount : ℚ) : String :=
  let n := roundHalfEven amount
  if n < 0 then "₹-" ++ groupThousands (toString n.natAbs)
  else "₹" ++ groupThousands (toString n.natAbs)

/-- Embedding of `format_percentage`: the template renders `rate * 100` with
one decimal place and a trailing percent sign. -/
def format_percentage (rate : ℚ) : String :=
  let t := roundHalfEven (rate * 100 * 10)
  let sign := if t < 0 then "-" else ""
  sign ++ toString (t.natAbs / 10) ++ "." ++ toString (t.natAbs % 10) ++ "%"

/-- A directory path relative to the project root, as name components. -/
abbrev DirPath := List String

/-- Filesystem state: the directories that exist under the project root, in
creation order. -/
abbrev FS := List DirPath

/-- All ancestors of a path, shortest first, the path itself included. -/
def pathAncestors (p : DirPath) : List DirPath :=
  (List.range p.length).map (fun k => p.take (k + 1))

/-- Record a directory as existing; an already present directory is left
alone. -/
def insertDir (fs : FS) (d : DirPath) : FS :=
  if d ∈ fs then fs else fs ++ [d]

/-- Model of `Path.mkdir(parents=..., exist_ok=...)`: raises `FileExistsError`
when the directory exists and `exist_ok` is false; with `parents` set it
creates all missing ancestors; without it, a missing parent raises
`FileNotFoundError`. -/
def mkdir (fs : FS) (p : DirPath) (parents exist_ok : Bool) : Except String FS :=
  if p ∈ fs ∧ exist_ok = false then
    Except.error ("FileExistsError")
  else if parents then
    Except.ok ((pathAncestors p).foldl insertDir fs)
  else if p.dropLast ≠ [] ∧ p.dropLast ∉ fs then
    Except.error ("FileNotFoundError")
  else
    Except.ok (insertDir fs p)

/-- The five directories listed in `create_output_directories`, relative to
the project root: `DATA_DIR / "processed"`, `OUTPUTS_DIR`, `FIGURES_DIR`,
`TABLES_DIR`, `LOGS_DIR`. -/
def output_directories : List DirPath :=
  [["data", "processed"], ["outputs"], ["outputs", "figures"],
   ["outputs", "tables"], ["outputs", "logs"]]

/-- Embedding of `create_output_directories`: `mkdir` with `parents` and
`exist_ok` both true, over the five listed directories in order. -/
def create_output_directories (fs : FS) : Except String FS :=
  output_directories.foldlM (fun s d => mkdir s d true true) fs

/-- The directories present after `create_output_directories` runs on an
empty project root: the five listed ones plus `data`, created implicitly as
the parent of `data/processed`. -/
def dirsAfter : FS :=
  [["data"], ["data", "processed"], ["outputs"], ["outputs", "figures"],
   ["outputs", "tables"], ["outputs", "logs"]]

end Config

namespace Config

/-- Claim C1: the spec asserts that for both genders `TOTAL_UNPAID_MINUTES`
does NOT equal the sum of the corresponding `TIME_ALLOCATION` entries.  In the
source data both sums match exactly: the eleven female entries sum to 441 and
the eleven male entries sum to 94.  This closed computation refutes the claim
as stated. -/
theorem totals_match_sums_counterexample :
    sumFemaleMinutes = 441 ∧ sumMaleMinutes = 94 := by decide

/-- Claim C1 (amended): for both genders the value in `TOTAL_UNPAID_MINUTES`
arithmetically equals the sum over all activities of the corresponding
`TIME_ALLOCATION` entries: the female minutes sum to 441 and the male minutes
sum to 94. -/
theorem totals_equal_itemized_sums :
    sumFemaleMinutes = TOTAL_UNPAID_MINUTES.female ∧
    sumMaleMinutes = TOTAL_UNPAID_MINUTES.male := by decide

/-- Claim C2: `MALE_ANNUAL_SALARY` equals the truncation of
`FEMALE_ANNUAL_SALARY * (1 + MALE_SALARY_PREMIUM)`, which for the source
values 1,345,000 and 0.35 is the floor of the product and equals exactly
1,815,750. -/
theorem male_annual_salary_value :
    MALE_ANNUAL_SALARY = ⌊(FEMALE_ANNUAL_SALARY : ℚ) * (1 + MALE_SALARY_PREMIUM)⌋ ∧
    MALE_ANNUAL_SALARY = 1815750 := by
  constructor
  · unfold MALE_ANNUAL_SALARY pyInt
    rw [if_pos (by unfold FEMALE_ANNUAL_SALARY MALE_SALARY_PREMIUM; norm_num)]
  · unfold MALE_ANNUAL_SALARY pyInt FEMALE_ANNUAL_SALARY MALE_SALARY_PREMIUM
    norm_num

/-- Claim C4: `GROWTH_RATE` is derived as the average of the two wage-growth
figures plus the conservative adjustment, and that value is 0.058 to within
the tolerance 1e-6 (in exact arithmetic it is 0.058 exactly). -/
theorem growth_rate_value :
    GROWTH_RATE = (WAGE_GROWTH_ASI + WAGE_GROWTH_EPFO) / 2 + CONSERVATIVE_ADJUSTMENT ∧
    |GROWTH_RATE - 58 / 1000| < 1 / 1000000 := by
  refine ⟨rfl, ?_⟩
  unfold GROWTH_RATE WAGE_GROWTH_ASI WAGE_GROWTH_EPFO CONSERVATIVE_ADJUSTMENT
  norm_num

/-- Claim C5: `DISCOUNT_RATE` is derived as the sum of the risk-free rate, the
inflation premium and the household risk premium, and that value is 0.106 to
within the tolerance 1e-6 (in exact arithmetic it is 0.106 exactly). -/
theorem discount_rate_value :
    DISCOUNT_RATE = RISK_FREE_RATE + INFLATION_PREMIUM + HOUSEHOLD_RISK_PREMIUM ∧
    |DISCOUNT_RATE - 106 / 1000| < 1 / 1000000 := by
  refine ⟨rfl, ?_⟩
  unfold DISCOUNT_RATE RISK_FREE_RATE INFLATION_PREMIUM HOUSEHOLD_RISK_PREMIUM
  norm_num

/-- Claim C3: `validate_parameters` succeeds on the default configuration;
with the growth rate set to 0.16 (all else default) it fails with an error
naming the growth rate and its value; and the five checks are made in the
stated order, the first violated check being the one reported (fail-fast). -/
theorem validate_parameters_spec :
    validate_parameters defaultParams = Except.ok () ∧
    validate_parameters { defaultParams with growth_rate := 16 / 100 } =
      Except.error ("Growth rate " ++ toString ((16 : ℚ) / 100) ++ " out of range") ∧
    (∀ p : Params, ¬ discountRateOK p →
      validate_parameters p =
        Except.error ("Discount rate " ++ toString p.discount_rate ++ " out of range")) ∧
    (∀ p : Params, discountRateOK p → ¬ growthRateOK p →
      validate_parameters p =
        Except.error ("Growth rate " ++ toString p.growth_rate ++ " out of range")) ∧
    (∀ p : Params, discountRateOK p → growthRateOK p → ¬ horizonOK p →
      validate_parameters p = Except.error ("Time horizon must be positive")) ∧
    (∀ p : Params, discountRateOK p → growthRateOK p → horizonOK p → ¬ iterationsOK p →
      validate_parameters p = Except.error ("Monte Carlo iterations too low")) ∧
    (∀ p : Params, discountRateOK p → growthRateOK p → horizonOK p → iterationsOK p →
      ¬ premiumOK p →
      validate_parameters p = Except.error ("Emotional labor premium out of range")) ∧
    (∀ p : Params, discountRateOK p → growthRateOK p → horizonOK p → iterationsOK p →
      premiumOK p → validate_parameters p = Except.ok ()) := by
  have h1 : ∀ p : Params, ¬ discountRateOK p →
      validate_parameters p =
        Except.error ("Discount rate " ++ toString p.discount_rate ++ " out of range") := by
    intro p h
    unfold validate_parameters
    rw [if_pos h]
  have h2 : ∀ p : Params, discountRateOK p → ¬ growthRateOK p →
      validate_parameters p =
        Except.error ("Growth rate " ++ toString p.growth_rate ++ " out of range") := by
    intro p ha h
    unfold validate_parameters
    rw [if_neg (not_not_intro ha), if_pos h]
  have h3 : ∀ p : Params, discountRateOK p → growthRateOK p → ¬ horizonOK p →
      validate_parameters p = Except.error ("Time horizon must be positive") := by
    intro p ha hb h
    unfold validate_parameters
    rw [if_neg (not_not_intro ha), if_neg (not_not_intro hb), if_pos h]
  have h4 : ∀ p : Params, discountRateOK p → growthRateOK p → horizonOK p →
      ¬ iterationsOK p →
      validate_parameters p = Except.error ("Monte Carlo iterations too low") := by
    intro p ha hb hc h
    unfold validate_parameters
    rw [if_neg (not_not_intro ha), if_neg (not_not_intro hb), if_neg (not_not_intro hc),
      if_pos h]
  have h5 : ∀ p : Params, discountRateOK p → growthRateOK p → horizonOK p →
      iterationsOK p → ¬ premiumOK p →
      validate_parameters p = Except.error ("Emotional labor premium out of range") := by
    intro p ha hb hc hd h
    unfold validate_parameters
    rw [if_neg (not_not_intro ha), if_neg (not_not_intro hb), if_neg (not_not_intro hc),
      if_neg (not_not_intro hd), if_pos h]
  have h6 : ∀ p : Params, discountRateOK p → growthRateOK p → horizonOK p →
      iterationsOK p → premiumOK p → validate_parameters p = Except.ok () := by
    intro p ha hb hc hd he
    unfold validate_parameters
    rw [if_neg (not_not_intro ha), if_neg (not_not_intro hb), if_neg (not_not_intro hc),
      if_neg (not_not_intro hd), if_neg (not_not_intro he)]
  have hdOK : discountRateOK defaultParams := by
    unfold discountRateOK defaultParams DISCOUNT_RATE RISK_FREE_RATE INFLATION_PREMIUM
      HOUSEHOLD_RISK_PREMIUM
    norm_num
  have hgOK : growthRateOK defaultParams := by
    unfold growthRateOK defaultParams GROWTH_RATE WAGE_GROWTH_ASI WAGE_GROWTH_EPFO
      CONSERVATIVE_ADJUSTMENT
    norm_num
  have hhOK : horizonOK defaultParams := by
    unfold horizonOK defaultParams TIME_HORIZON_YEARS
    norm_num
  have hiOK : iterationsOK defaultParams := by
    unfold iterationsOK defaultParams MC_ITERATIONS
    norm_num
  have hpOK : premiumOK defaultParams := by
    unfold premiumOK defaultParams EMOTIONAL_LABOR_PREMIUM
    norm_num
  refine ⟨h6 defaultParams hdOK hgOK hhOK hiOK hpOK, ?_, h1, h2, h3, h4, h5, h6⟩
  exact h2 { defaultParams with growth_rate := 16 / 100 }
    (by
      unfold discountRateOK defaultParams DISCOUNT_RATE RISK_FREE_RATE INFLATION_PREMIUM
        HOUSEHOLD_RISK_PREMIUM
      norm_num)
    (by
      unfold growthRateOK
      norm_num)

/-- Witness for C3: the ordering part of `validate_parameters_spec` applied at
a concrete configuration whose Monte Carlo iteration count is too low. -/
theorem validate_parameters_spec_witness :
    validate_parameters { defaultParams with mc_iterations := 10 } =
      Except.error ("Monte Carlo iterations too low") := by
  apply validate_parameters_spec.2.2.2.2.2.1
  · unfold discountRateOK defaultParams DISCOUNT_RATE RISK_FREE_RATE INFLATION_PREMIUM
      HOUSEHOLD_RISK_PREMIUM
    norm_num
  · unfold growthRateOK defaultParams GROWTH_RATE WAGE_GROWTH_ASI WAGE_GROWTH_EPFO
      CONSERVATIVE_ADJUSTMENT
    norm_num
  · unfold horizonOK defaultParams TIME_HORIZON_YEARS
    norm_num
  · unfold iterationsOK
    norm_num

/-- Claim C7: `get_annual_hours m` equals `m * 365 / 60` for every
nonnegative daily-minute input, and the function is monotonically
increasing on nonnegative inputs. -/
theorem get_annual_hours_spec (m m1 m2 : ℚ) (hm : 0 ≤ m) (h1 : 0 ≤ m1) (h12 : m1 ≤ m2) :
    get_annual_hours m = m * 365 / 60 ∧ get_annual_hours m1 ≤ get_annual_hours m2 := by
  constructor
  · rfl
  · unfold get_annual_hours DAYS_PER_YEAR MINUTES_PER_HOUR
    linarith

/-- Witness for C7 at the concrete inputs 60 and 120 minutes per day. -/
theorem get_annual_hours_spec_witness :
    get_annual_hours 60 = 60 * 365 / 60 ∧ get_annual_hours 60 ≤ get_annual_hours 120 :=
  get_annual_hours_spec 60 60 120 (by norm_num) (by norm_num) (by norm_num)

/-- Claim C8: `format_currency 1234567` renders as the rupee sign followed by
the thousands-grouped integer, and `format_percentage 0.106` renders as the
rate times 100 with one decimal place and a percent sign. -/
theorem formatting_spec :
    format_currency 1234567 = "₹1,234,567" ∧
    format_percentage (106 / 1000) = "10.6%" := by
  have hr : roundHalfEven (1234567 : ℚ) = 1234567 := by
    unfold roundHalfEven
    norm_num
  have hq : (106 / 1000 : ℚ) * 100 * 10 = 106 := by norm_num
  have hr2 : roundHalfEven ((106 / 1000 : ℚ) * 100 * 10) = 106 := by
    rw [hq]
    unfold roundHalfEven
    norm_num
  constructor
  · simp only [format_currency, hr]
    norm_num
    rfl
  · simp only [format_percentage, hr2]
    norm_num
    rfl

/-- Claim C9: the Monte Carlo specification satisfies its documented
invariant: at least 1000 iterations, and every distribution of `MC_PARAMS`
has its bounds ordered around its mean. -/
theorem mc_params_invariant :
    1000 ≤ MC_ITERATIONS ∧
    ∀ pd ∈ MC_PARAMS, pd.2.min ≤ pd.2.mean ∧ pd.2.mean ≤ pd.2.max := by
  refine ⟨by norm_num [MC_ITERATIONS], ?_⟩
  intro pd hpd
  unfold MC_PARAMS at hpd
  fin_cases hpd <;>
    exact ⟨by norm_num [DISCOUNT_RATE, RISK_FREE_RATE, INFLATION_PREMIUM,
        HOUSEHOLD_RISK_PREMIUM, GROWTH_RATE, WAGE_GROWTH_ASI, WAGE_GROWTH_EPFO,
        CONSERVATIVE_ADJUSTMENT, LIFECYCLE_COST_LUMP],
      by norm_num [DISCOUNT_RATE, RISK_FREE_RATE, INFLATION_PREMIUM,
        HOUSEHOLD_RISK_PREMIUM, GROWTH_RATE, WAGE_GROWTH_ASI, WAGE_GROWTH_EPFO,
        CONSERVATIVE_ADJUSTMENT, LIFECYCLE_COST_LUMP]⟩

/-- Witness for C9 at the discount-rate entry of `MC_PARAMS`. -/
theorem mc_params_invariant_witness :
    (5 / 100 : ℚ) ≤ DISCOUNT_RATE ∧ DISCOUNT_RATE ≤ 15 / 100 :=
  mc_params_invariant.2 ("discount_rate", ⟨DISCOUNT_RATE, 15 / 1000, 5 / 100, 15 / 100⟩)
    (by unfold MC_PARAMS; exact List.mem_cons_self _ _)

/-- Claim C10: the Monte Carlo distribution means are exactly the derived
baseline constants `DISCOUNT_RATE`, `GROWTH_RATE` and `LIFECYCLE_COST_LUMP`,
so a change to a baseline propagates into the sampling distribution. -/
theorem mc_means_equal_baselines :
    (MC_PARAMS.lookup "discount_rate").map Dist.mean = some DISCOUNT_RATE ∧
    (MC_PARAMS.lookup "growth_rate").map Dist.mean = some GROWTH_RATE ∧
    (MC_PARAMS.lookup "lifecycle_cost").map Dist.mean = some LIFECYCLE_COST_LUMP :=
  ⟨rfl, rfl, rfl⟩

/-- Counterexample for C6: after `create_output_directories` runs on an empty
project root, the number of directories present is six, not five, because
`data` is created as the parent of `data/processed`. -/
theorem five_directories_counterexample :
    create_output_directories [] = Except.ok dirsAfter ∧ dirsAfter.length ≠ 5 := by
  exact ⟨rfl, by decide⟩

/-- Claim C6 (amended): a second call of `create_output_directories` produces
no error and leaves the state unchanged, and afterwards exactly six
directories are present: the five listed in the source plus `data`, created
implicitly as the parent of `data/processed`. -/
theorem create_output_directories_idempotent :
    create_output_directories [] = Except.ok dirsAfter ∧
    create_output_directories dirsAfter = Except.ok dirsAfter ∧
    dirsAfter.length = 6 ∧
    ["data", "processed"] ∈ dirsAfter ∧ ["outputs"] ∈ dirsAfter ∧
    ["outputs", "figures"] ∈ dirsAfter ∧ ["outputs", "tables"] ∈ dirsAfter ∧
    ["outputs", "logs"] ∈ dirsAfter ∧ ["data"] ∈ dirsAfter := by
  refine ⟨rfl, rfl, by decide, ?_, ?_, ?_, ?_, ?_, ?_⟩ <;> decide

end Config
